import Mathlib

/-!
Verification of the Northstar compliance-audit pipeline.

This file is a shallow embedding of the deterministic parts of the
FastAPI server under src/server: the score/grade engine and report
generator (agents/report_generator.py), the gap analyzer
(agents/pdf_analyzer.py), the document classifier
(agents/document_classifier.py), the compliance researcher
(agents/compliance_researcher.py), the pipeline orchestrator
(services/pipeline.py) and the error-code mapping of the audit route
(routes/audit.py).

External backend calls (the Dedalus runner) are nondeterministic at the
boundary; each agent takes the outcome of its live call as an explicit
argument (an inductive of the parse cases the Python code distinguishes)
together with a flag recording whether DEDALUS_API_KEY is configured.
Python dicts accessed with .get are embedded as structures with Option
fields; Python f-string formatting of ints and strings is embedded with
toString and string append.  Side effects (printing, PDF rendering,
database writes) are not modelled; they do not affect any returned value.
-/

/-- agents/pdf_analyzer.py, class GapLocation: location of a gap in the PDF. -/
structure GapLocation where
  page : Int
  quote : String
  context : String
deriving DecidableEq

/-- agents/pdf_analyzer.py, class ComplianceGap: a single compliance gap.
The severity field is a plain string; the Python model declares it as
str with only a comment naming the intended values. -/
structure ComplianceGap where
  severity : String
  title : String
  description : String
  regulation : String
  locations : List GapLocation
deriving DecidableEq

/-- agents/pdf_analyzer.py, class AnalysisResult. -/
structure AnalysisResult where
  gaps : List ComplianceGap
  raw_observations : Option String
deriving DecidableEq

/-- The gap dictionaries the pipeline builds from AnalysisResult and that
report_generator.py consumes with dict.get calls: every field read with
g.get(...) is an Option. -/
structure GapDict where
  severity : Option String
  title : Option String
  description : Option String
  regulation : Option String
  locations : List GapLocation
deriving DecidableEq

/-- services/pipeline.py lines 74-86: conversion of a Pydantic gap to the
plain dict handed to the report generator (every key present). -/
def gapToDict (g : ComplianceGap) : GapDict :=
  { severity := some g.severity
    title := some g.title
    description := some g.description
    regulation := some g.regulation
    locations := g.locations }

/-- report_generator.py line 39: the severity_weights dict
\x7b"critical": 15, "high": 8, "medium": 3\x7d, as a lookup. -/
def severityWeights (s : String) : Option Int :=
  if s = "critical" then some 15
  else if s = "high" then some 8
  else if s = "medium" then some 3
  else none

/-- report_generator.py line 41: severity_weights.get(g.get("severity",
"medium"), 3), the penalty one gap contributes. -/
def gapPenalty (g : GapDict) : Int :=
  (severityWeights (g.severity.getD "medium")).getD 3

/-- report_generator.py lines 40-42: total_penalty, the sum of per-gap
penalties. -/
def totalPenalty (gaps : List GapDict) : Int :=
  (gaps.map gapPenalty).sum

/-- report_generator.py _calculate_score: max(0, 100 - total_penalty). -/
def calculateScore (gaps : List GapDict) : Int :=
  max 0 (100 - totalPenalty gaps)

/-- report_generator.py _calculate_grade: fixed grade bands. -/
def calculateGrade (score : Int) : String :=
  if score ≥ 90 then "A"
  else if score ≥ 80 then "B"
  else if score ≥ 70 then "C"
  else if score ≥ 60 then "D"
  else "F"

/-- report_generator.py _ensure_five_items, lines 198-204: the fixed
generic default remediation steps. -/
def defaultRemediation : List String :=
  [ "Document all remediation actions taken with supporting evidence for audit trail.",
    "Conduct training for relevant personnel on updated compliance requirements.",
    "Schedule a follow-up compliance review within 60 days to verify remediation effectiveness.",
    "Update internal control documentation to reflect current processes.",
    "Establish a continuous monitoring program for high-risk areas." ]

/-- report_generator.py _ensure_five_items: truncate to 5 or pad with the
defaults. -/
def ensureFiveItems (items : List String) : List String :=
  if 5 ≤ items.length then items.take 5
  else items ++ defaultRemediation.take (5 - items.length)

/-- report_generator.py _fallback_report line 253: the severity-keyed
timeframe dict lookup with default "within 60 days". -/
def timeframeFor (severity : String) : String :=
  if severity = "critical" then "within 14 days"
  else if severity = "high" then "within 30 days"
  else if severity = "medium" then "within 60 days"
  else "within 60 days"

/-- report_generator.py _fallback_report lines 250-257: one remediation
step built from one gap. -/
def remediationStep (g : GapDict) : String :=
  "Address \"" ++ g.title.getD "identified gap" ++ "\" "
    ++ timeframeFor (g.severity.getD "medium")
    ++ " by reviewing compliance with "
    ++ g.regulation.getD "applicable regulations" ++ "."

/-- The dict returned by generate_report / _fallback_report (the
report_pdf_url key is added by the caller in the fallback case). -/
structure ReportData where
  score : Int
  grade : String
  remediation : List String
  executive_summary : String
  report_pdf_url : String
deriving DecidableEq

/-- report_generator.py _fallback_report: deterministic report without
Dedalus.  The executive summary is derived from gap counts by severity
and the score; remediation steps from the first five gaps, padded. -/
def fallbackReport (score : Int) (grade : String) (gaps : List GapDict)
    (documentType : String) : ReportData :=
  let criticalCount := (gaps.filter (fun g => g.severity == some "critical")).length
  let highCount := (gaps.filter (fun g => g.severity == some "high")).length
  let mediumCount := (gaps.filter (fun g => g.severity == some "medium")).length
  let parts :=
    (if criticalCount ≠ 0 then [toString criticalCount ++ " critical"] else [])
      ++ (if highCount ≠ 0 then [toString highCount ++ " high"] else [])
      ++ (if mediumCount ≠ 0 then [toString mediumCount ++ " medium"] else [])
  let severityText := if parts = [] then "various" else String.intercalate ", " parts
  let base :=
    "The audit of the " ++ documentType ++ " document identified "
      ++ toString gaps.length ++ " compliance gaps (" ++ severityText
      ++ " severity). The overall compliance score is " ++ toString score
      ++ "/100 (Grade: " ++ grade ++ "). "
  let executiveSummary :=
    if criticalCount ≠ 0 then
      base ++ "The most critical finding involves "
        ++ (((gaps.find? (fun g => g.severity == some "critical")).map
              (fun fc => (fc.title.getD "a critical deficiency").toLower)).getD "")
        ++ ". Immediate remediation is required for critical findings before the next reporting cycle."
    else if highCount ≠ 0 then
      base ++ "High-priority gaps should be addressed within 30 days. "
        ++ "A follow-up review should be scheduled after remediation actions are completed."
    else
      base ++ "The compliance posture is satisfactory with minor improvements recommended. "
        ++ "A follow-up review should be scheduled within the next quarter."
  let remediation := (gaps.take 5).map remediationStep
  { score := score
    grade := grade
    remediation := ensureFiveItems remediation
    executive_summary := executiveSummary
    report_pdf_url := "" }

/-- The parse cases of the live report call in generate_report: the
response parses into a summary and a remediation list (either as the
structured ReportOutput or via json.loads, both of which yield the same
two fields, with missing keys defaulting to "" and []), or it is
unparseable, or there is no final output, or the runner raises. -/
inductive ReportLive where
  | parsed (summary : String) (remediation : List String)
  | unparseable
  | noOutput
  | exn
deriving DecidableEq

/-- report_generator.py generate_report: score and grade are always
computed locally; without an API key, or when the live result is
unusable (empty summary or remediation raises ValueError, caught by the
same except as runner failures), the fallback report is returned; a
usable live result has its remediation forced to exactly five items. -/
def generateReport (auditId documentName documentType : String)
    (gaps : List GapDict) (apiKey : Bool) (live : ReportLive) : ReportData :=
  let score := calculateScore gaps
  let grade := calculateGrade score
  let reportPdfUrl := "/api/files/report_" ++ auditId ++ ".pdf"
  if !apiKey then
    { fallbackReport score grade gaps documentType with report_pdf_url := reportPdfUrl }
  else
    match live with
    | .parsed summary remediation =>
        if summary = "" ∨ remediation = [] then
          { fallbackReport score grade gaps documentType with report_pdf_url := reportPdfUrl }
        else
          { score := score
            grade := grade
            remediation := ensureFiveItems remediation
            executive_summary := summary
            report_pdf_url := reportPdfUrl }
    | .unparseable =>
        { fallbackReport score grade gaps documentType with report_pdf_url := reportPdfUrl }
    | .noOutput =>
        { fallbackReport score grade gaps documentType with report_pdf_url := reportPdfUrl }
    | .exn =>
        { fallbackReport score grade gaps documentType with report_pdf_url := reportPdfUrl }

-- Helper lemmas about the score engine.

theorem gapPenalty_nonneg (g : GapDict) : 0 ≤ gapPenalty g := by
  unfold gapPenalty severityWeights
  split
  · simp
  · split
    · simp
    · split <;> simp

theorem totalPenalty_nonneg (gaps : List GapDict) : 0 ≤ totalPenalty gaps := by
  unfold totalPenalty
  apply List.sum_nonneg
  intro x hx
  obtain ⟨g, _, rfl⟩ := List.mem_map.mp hx
  exact gapPenalty_nonneg g

theorem totalPenalty_cons (g : GapDict) (gaps : List GapDict) :
    totalPenalty (g :: gaps) = gapPenalty g + totalPenalty gaps := by
  simp [totalPenalty]

theorem ensureFiveItems_length (items : List String) :
    (ensureFiveItems items).length = 5 := by
  unfold ensureFiveItems
  split
  · simp
    omega
  · simp [defaultRemediation]
    omega

-- ---------------------------------------------------------------------------
-- Document classifier (agents/document_classifier.py)
-- ---------------------------------------------------------------------------

/-- agents/document_classifier.py, class ClassificationResult. -/
structure ClassificationResult where
  is_financial_document : Bool
  detected_type : Option String
  reason : String
deriving DecidableEq

/-- The parse cases of the live classification call in classify_document:
a verdict that parses and validates (line 83-89), output whose JSON parse
or validation fails (caught at line 90, falling through to line 93),
a missing or empty final output (also reaching line 93), or the runner
raising (caught at line 98). -/
inductive ClassifyLive where
  | parsed (r : ClassificationResult)
  | unparseable
  | noOutput
  | exn
deriving DecidableEq

/-- agents/document_classifier.py classify_document.  Without an API key
(line 32) the verdict is accept with a skip reason; with a key, parsed
output is returned as is; unparseable or empty output is rejected with a
parse-failure reason; a runner exception is rejected with an
internal-error reason. -/
def classifyDocument (apiKey : Bool) (live : ClassifyLive) : ClassificationResult :=
  if !apiKey then
    { is_financial_document := true
      detected_type := none
      reason := "Skipping validation (no API key)" }
  else
    match live with
    | .parsed r => r
    | .unparseable =>
        { is_financial_document := false
          detected_type := none
          reason := "Validation failed: Agent returned unparseable or empty output." }
    | .noOutput =>
        { is_financial_document := false
          detected_type := none
          reason := "Validation failed: Agent returned unparseable or empty output." }
    | .exn =>
        { is_financial_document := false
          detected_type := none
          reason := "Classification unavailable due to an internal error. Please retry." }

-- ---------------------------------------------------------------------------
-- Compliance researcher (agents/compliance_researcher.py)
-- ---------------------------------------------------------------------------

/-- The dict research_compliance_rules returns:
\x7b"rules", "sources", "last_updated"\x7d. -/
structure RulesDict where
  rules : String
  sources : List String
  last_updated : String
deriving DecidableEq

/-- compliance_researcher.py _FALLBACK_RULES["SOX 404"]. -/
def sox404FallbackRules : RulesDict :=
  { rules :=
      "SOX Section 404 — Internal Control over Financial Reporting\n\n"
        ++ "1. ITGC Documentation (CRITICAL)\n"
        ++ "   IT General Controls must be fully documented for all financial "
        ++ "reporting systems, including change management, logical access, "
        ++ "and computer operations. Reference: COSO Framework CC5.1\n\n"
        ++ "2. Segregation of Duties (CRITICAL)\n"
        ++ "   Transaction initiation, authorization, recording, and custody "
        ++ "must be performed by separate individuals. No single person should "
        ++ "control multiple stages. Reference: PCAOB AS 2201.22\n\n"
        ++ "3. Quarterly Access Reviews (HIGH)\n"
        ++ "   Access logs for financial systems must be reviewed at least "
        ++ "quarterly with formal sign-off from compliance officers. Annual "
        ++ "reviews are insufficient. Reference: COSO CC6.1\n\n"
        ++ "4. Risk Assessment Process (HIGH)\n"
        ++ "   Management must document a formal risk assessment identifying "
        ++ "risks to reliable financial reporting and the controls that "
        ++ "mitigate them. Reference: SOX 404 Risk Assessment\n\n"
        ++ "5. Monitoring and Deficiency Tracking (MEDIUM)\n"
        ++ "   Ongoing monitoring activities must be in place with a formal "
        ++ "process for tracking, escalating, and remediating control "
        ++ "deficiencies. Reference: SOX 404 Monitoring\n\n"
        ++ "6. Management Assessment and Testing (CRITICAL)\n"
        ++ "   Management must perform its own assessment of internal controls "
        ++ "and document the basis for its conclusions. Reference: SEC Rule "
        ++ "33-8238\n"
    sources :=
      [ "https://www.sec.gov/rules/final/33-8238.htm",
        "https://pcaobus.org/oversight/standards/auditing-standards/details/AS2201",
        "https://www.coso.org/guidance-on-ic" ]
    last_updated := "2026-01-15" }

/-- compliance_researcher.py _FALLBACK_RULES["10-K"]. -/
def tenKFallbackRules : RulesDict :=
  { rules :=
      "SEC Regulation S-K — 10-K Annual Report Requirements\n\n"
        ++ "1. Risk Factors — Item 105 (CRITICAL)\n"
        ++ "   Registrants must disclose the most significant factors that "
        ++ "make an investment speculative or risky, organized by relevance. "
        ++ "Generic risk factors are insufficient. Reference: Reg S-K Item 105\n\n"
        ++ "2. MD&A — Item 303 (CRITICAL)\n"
        ++ "   Management\x27s Discussion and Analysis must include known trends, "
        ++ "demands, commitments, events, or uncertainties that are reasonably "
        ++ "likely to have a material effect. Forward-looking statements "
        ++ "required. Reference: Reg S-K Item 303\n\n"
        ++ "3. Financial Statements — Item 8 (CRITICAL)\n"
        ++ "   Audited financial statements and supplementary data must be "
        ++ "included with an independent auditor\x27s report. Reference: Reg S-K "
        ++ "Item 8\n\n"
        ++ "4. Controls & Procedures — Item 9A (HIGH)\n"
        ++ "   Disclosure of management\x27s conclusions about the effectiveness "
        ++ "of disclosure controls and procedures. Must include any changes "
        ++ "in internal controls. Reference: Reg S-K Item 9A\n\n"
        ++ "5. XBRL/iXBRL Tagging (MEDIUM)\n"
        ++ "   Financial statements must be tagged in iXBRL format. All line "
        ++ "items require appropriate tagging. Reference: SEC Rule 405 Reg S-T\n\n"
        ++ "6. Executive Compensation — Item 402 (HIGH)\n"
        ++ "   Full disclosure of compensation for named executive officers "
        ++ "including summary compensation table. Reference: Reg S-K Item 402\n"
    sources :=
      [ "https://www.sec.gov/divisions/corpfin/guidance/regs-kinterp.htm",
        "https://www.sec.gov/rules/final/2020/33-10825.htm" ]
    last_updated := "2026-01-15" }

/-- compliance_researcher.py _FALLBACK_RULES["8-K"]. -/
def eightKFallbackRules : RulesDict :=
  { rules :=
      "SEC Form 8-K — Current Report Requirements\n\n"
        ++ "1. Timeliness (CRITICAL)\n"
        ++ "   Material events must be disclosed within 4 business days of "
        ++ "occurrence. Late filings may trigger enforcement action. "
        ++ "Reference: SEC Rule 13a-11\n\n"
        ++ "2. Material Definitive Agreements — Item 1.01 (CRITICAL)\n"
        ++ "   Entry into or termination of material contracts must be "
        ++ "disclosed with key terms and conditions. Reference: Form 8-K "
        ++ "Item 1.01\n\n"
        ++ "3. Acquisition or Disposition — Item 2.01 (CRITICAL)\n"
        ++ "   Completion of material acquisitions or dispositions must be "
        ++ "reported including purchase price, assets acquired, and funding "
        ++ "sources. Reference: Form 8-K Item 2.01\n\n"
        ++ "4. Officer Changes — Item 5.02 (HIGH)\n"
        ++ "   Departure or appointment of principal officers and directors "
        ++ "must be disclosed. Reference: Form 8-K Item 5.02\n\n"
        ++ "5. Financial Statements — Item 9.01 (HIGH)\n"
        ++ "   Financial statements and exhibits as required by the triggering "
        ++ "event must be filed or incorporated by reference. Reference: "
        ++ "Form 8-K Item 9.01\n\n"
        ++ "6. Material Impairments — Item 2.06 (MEDIUM)\n"
        ++ "   Material charges for impairment must be disclosed with the "
        ++ "facts and circumstances leading to the conclusion. Reference: "
        ++ "Form 8-K Item 2.06\n"
    sources :=
      [ "https://www.sec.gov/about/forms/form8-k.pdf",
        "https://www.sec.gov/rules/final/2004/33-8400.htm" ]
    last_updated := "2026-01-15" }

/-- compliance_researcher.py _FALLBACK_RULES["Invoice"]. -/
def invoiceFallbackRules : RulesDict :=
  { rules :=
      "Invoice Compliance — GAAP & Internal Control Standards\n\n"
        ++ "1. Mathematical Accuracy (HIGH)\n"
        ++ "   Line item totals must sum to the invoice total. Tax "
        ++ "calculations must be verifiable and match applicable jurisdiction "
        ++ "rates. Reference: GAAP Invoice Standards\n\n"
        ++ "2. Authorization Signatures (CRITICAL)\n"
        ++ "   Invoices exceeding $10,000 require an authorized signature. "
        ++ "Approval authority matrix must be documented and followed. "
        ++ "Reference: Internal Controls — Invoice Approval\n\n"
        ++ "3. Three-Way Match (HIGH)\n"
        ++ "   Invoice must match the purchase order and goods receipt. "
        ++ "Discrepancies above $1,000 require investigation and sign-off. "
        ++ "Reference: Internal Controls — Procurement\n\n"
        ++ "4. Duplicate Detection (HIGH)\n"
        ++ "   Invoice numbers must be unique. Systems must flag potential "
        ++ "duplicates by number, amount, and vendor within a rolling "
        ++ "12-month window. Reference: Internal Controls — Duplicate "
        ++ "Detection\n\n"
        ++ "5. Tax Compliance (MEDIUM)\n"
        ++ "   Tax calculations must comply with the applicable jurisdiction "
        ++ "rates. Tax-exempt transactions require valid exemption "
        ++ "certificates on file. Reference: State Tax Compliance\n\n"
        ++ "6. Purchase Order Reference (MEDIUM)\n"
        ++ "   Invoices exceeding $5,000 must reference a valid purchase "
        ++ "order. Exceptions require documented approval. Reference: "
        ++ "Procurement Controls\n"
    sources :=
      [ "https://www.irs.gov/businesses/small-businesses-self-employed/keeping-records",
        "https://www.fasb.org/standards" ]
    last_updated := "2026-01-15" }

/-- compliance_researcher.py _FALLBACK_RULES.get(document_type). -/
def fallbackRulesTable (documentType : String) : Option RulesDict :=
  if documentType = "SOX 404" then some sox404FallbackRules
  else if documentType = "10-K" then some tenKFallbackRules
  else if documentType = "8-K" then some eightKFallbackRules
  else if documentType = "Invoice" then some invoiceFallbackRules
  else none

/-- compliance_researcher.py research_compliance_rules lines 353-363: the
fallback path (table hit, else the generic dict). -/
def fallbackResearch (documentType : String) : RulesDict :=
  match fallbackRulesTable documentType with
  | some r => r
  | none =>
      { rules := "Standard financial compliance requirements apply."
        sources := []
        last_updated := "2026-01-01" }

/-- The outcome of _research_with_dedalus as seen by its caller: a dict
(rules text, sources, last_updated), or an exception (any of ImportError,
RuntimeError for unusable output, or a runner failure — all caught by the
same except clauses). -/
inductive ResearchLive where
  | ok (result : RulesDict)
  | exn (msg : String)
deriving DecidableEq

/-- compliance_researcher.py research_compliance_rules: live research is
attempted only with an API key; a live result is kept only when its
rules text is non-empty and longer than 50 characters; every other
outcome (exception, or a short result) uses the static fallback. -/
def researchComplianceRules (apiKey : Bool) (live : ResearchLive)
    (documentType : String) : RulesDict :=
  if apiKey then
    match live with
    | .ok result =>
        if result.rules ≠ "" ∧ 50 < result.rules.length then result
        else fallbackResearch documentType
    | .exn _ => fallbackResearch documentType
  else fallbackResearch documentType

-- ---------------------------------------------------------------------------
-- PDF analyzer (agents/pdf_analyzer.py)
-- ---------------------------------------------------------------------------

/-- pdf_extractor.py output: one page record. -/
structure PageData where
  page_num : Nat
  text : String
deriving DecidableEq

/-- pdf_extractor.py extract_text_from_pdf output shape. -/
structure Extracted where
  full_text : String
  pages : List PageData
  page_count : Nat
deriving DecidableEq

/-- pdf_analyzer.py _mock_analysis: the fixed, category-specific fallback
gaps used when Dedalus is unavailable or fails, tagged in
raw_observations with the reason. -/
def mockAnalysis (documentType : String) (reason : String) : AnalysisResult :=
  let obs := "NOTICE: Using fallback mock data. Reason: " ++ reason
  if documentType = "SOX 404" then
    { gaps :=
        [ { severity := "critical"
            title := "Missing ITGC Documentation"
            description := "No evidence of IT General Controls documentation for financial reporting systems."
            regulation := "SOX Section 404(a) — COSO Framework CC5.1"
            locations := [⟨1, "Document lacks ITGC controls description", "General"⟩] },
          { severity := "high"
            title := "Inadequate Segregation of Duties"
            description := "Same personnel responsible for transaction initiation and approval."
            regulation := "SOX Section 404(b) — PCAOB AS 2201.22"
            locations := [⟨1, "No segregation of duties policy found", "General"⟩] },
          { severity := "medium"
            title := "No Quarterly Access Review"
            description := "Access logs for financial systems not reviewed on a quarterly basis."
            regulation := "SOX Section 404 — COSO CC6.1"
            locations := [⟨1, "Access review frequency not specified", "General"⟩] } ]
      raw_observations := some obs }
  else if documentType = "10-K" ∨ documentType = "8-K" then
    { gaps :=
        [ { severity := "high"
            title := "Risk Factor Disclosure Gap"
            description := "Material risks not adequately disclosed in risk factors section."
            regulation := "SEC Regulation S-K Item 105"
            locations := [⟨1, "Limited risk disclosure found", "Risk Factors"⟩] },
          { severity := "medium"
            title := "Forward-Looking Statements"
            description := "Forward-looking statements lack sufficient cautionary language."
            regulation := "SEC Regulation S-K Item 303"
            locations := [⟨1, "Missing safe harbor language", "MD&A"⟩] },
          { severity := "medium"
            title := "Executive Compensation Disclosure"
            description := "Performance metrics for compensation not fully disclosed."
            regulation := "SEC Regulation S-K Item 402"
            locations := [⟨1, "Compensation metrics unclear", "Executive Compensation"⟩] } ]
      raw_observations := some obs }
  else
    { gaps :=
        [ { severity := "high"
            title := "Documentation Gap"
            description := "Required documentation elements are missing or incomplete."
            regulation := "General compliance standards"
            locations := [⟨1, "Incomplete documentation", "General"⟩] },
          { severity := "medium"
            title := "Approval Workflow Missing"
            description := "No evidence of proper approval workflow."
            regulation := "Internal control standards"
            locations := [⟨1, "No approval signatures found", "General"⟩] } ]
      raw_observations := some obs }

/-- The parse cases of the live analysis call in analyze_pdf: a response
that is already a structured AnalysisResult (line 305), one that parses
from JSON into an AnalysisResult (line 311), unparseable text (line 313,
mock gaps with the raw text kept), a missing final output (line 320), or
a runner exception (line 322). -/
inductive AnalysisLive where
  | structured (r : AnalysisResult)
  | jsonParsed (r : AnalysisResult)
  | unparseable (text : String)
  | noOutput
  | exn (msg : String)
deriving DecidableEq

/-- pdf_analyzer.py analyze_pdf.  The extracted text and the rules feed
only the prompt of the live call, so they do not affect the returned
value; they are kept as arguments to mirror the signature.  No severity
validation is performed on a parsed live response. -/
def analyzePdf (extractedText : Extracted) (documentType : String)
    (complianceRules : Option String) (apiKey : Bool) (live : AnalysisLive) :
    AnalysisResult :=
  if !apiKey then mockAnalysis documentType "DEDALUS_API_KEY not set"
  else
    match live with
    | .structured r => r
    | .jsonParsed r => r
    | .unparseable text =>
        { gaps := (mockAnalysis documentType "Dedalus service unavailable").gaps
          raw_observations := some text }
    | .noOutput => mockAnalysis documentType "Dedalus service unavailable"
    | .exn msg => mockAnalysis documentType ("Dedalus error: " ++ msg)

/-- severity membership in the three-level set, as a boolean test. -/
def severityAllowed (s : String) : Bool :=
  s == "critical" || s == "high" || s == "medium"

-- ---------------------------------------------------------------------------
-- Pipeline orchestrator (services/pipeline.py) and audit route (routes/audit.py)
-- ---------------------------------------------------------------------------

/-- The downstream agents the orchestrator can invoke.  documentGatekeeper
is the classifier of agents/document_classifier.py (Agent 0). -/
inductive AgentCall where
  | documentGatekeeper
  | ruleProvider
  | gapAnalyzer
  | reportSynthesizer
deriving DecidableEq

/-- The final response dict of run_audit_pipeline (CONTRACT.md shape). -/
structure AuditResult where
  audit_id : String
  user_id : String
  source : String
  score : Int
  grade : String
  document_name : String
  document_type : String
  timestamp : String
  gaps : List GapDict
  remediation : List String
  executive_summary : String
  report_pdf_url : String
deriving DecidableEq

/-- services/pipeline.py run_audit_pipeline.  audit_id and timestamp are
generated once at pipeline start (uuid / clock, nondeterministic) and are
arguments here; extraction is the outcome of extract_text_from_pdf.  The
second component records, in order, which agents the run invoked: the
function body calls research_compliance_rules, analyze_pdf and
generate_report in sequence and never calls classify_document. -/
def runAuditPipeline (auditId timestamp : String)
    (extraction : Except String Extracted)
    (apiKey : Bool) (classifyLive : ClassifyLive) (researchLive : ResearchLive)
    (analysisLive : AnalysisLive) (reportLive : ReportLive)
    (documentName documentType userId source : String) :
    Except String AuditResult × List AgentCall :=
  match extraction with
  | .error e => (.error ("PDF extraction failed: " ++ e), [])
  | .ok _extracted =>
      let research := researchComplianceRules apiKey researchLive documentType
      let rulesText := research.rules
      let analysis := analyzePdf _extracted documentType (some rulesText) apiKey analysisLive
      let gapsDict := analysis.gaps.map gapToDict
      let report := generateReport auditId documentName documentType gapsDict apiKey reportLive
      (.ok
        { audit_id := auditId
          user_id := userId
          source := source
          score := report.score
          grade := report.grade
          document_name := documentName
          document_type := documentType
          timestamp := timestamp
          gaps := gapsDict
          remediation := report.remediation
          executive_summary := report.executive_summary
          report_pdf_url := "/api/files/report_" ++ auditId ++ ".pdf" },
       [.ruleProvider, .gapAnalyzer, .reportSynthesizer])

/-- routes/audit.py run_audit lines 64-72: the error code attached to a
ValueError message raised by the pipeline. -/
def auditErrorCode (msg : String) : String :=
  if msg.startsWith "Invalid document:" then "NOT_FINANCIAL_DOCUMENT"
  else if msg.startsWith "PDF extraction failed:" then "PDF_EXTRACTION_FAILED"
  else "VALIDATION_ERROR"

/-- The structured error code the route caller receives, none on success. -/
def responseErrorCode (pipelineResult : Except String AuditResult) : Option String :=
  match pipelineResult with
  | .ok _ => none
  | .error msg => some (auditErrorCode msg)

-- ---------------------------------------------------------------------------
-- Concrete sample data for the scenario checks
-- ---------------------------------------------------------------------------

/-- Scenario A gap list: one critical, one high, one medium gap, in that
order. -/
def scenarioGaps : List GapDict :=
  [ { severity := some "critical"
      title := some "Missing ITGC Documentation"
      description := some "No evidence of IT General Controls documentation for financial reporting systems."
      regulation := some "SOX Section 404(a) — COSO Framework CC5.1"
      locations := [] },
    { severity := some "high"
      title := some "Inadequate Segregation of Duties"
      description := some "Same personnel responsible for transaction initiation and approval."
      regulation := some "SOX Section 404(b) — PCAOB AS 2201.22"
      locations := [] },
    { severity := some "medium"
      title := some "No Quarterly Access Review"
      description := some "Access logs for financial systems not reviewed on a quarterly basis."
      regulation := some "SOX Section 404 — COSO CC6.1"
      locations := [] } ]

/-- A small extraction result. -/
def sampleExtracted : Extracted :=
  { full_text := "Sample document text"
    pages := [⟨1, "Sample document text"⟩]
    page_count := 1 }

/-- A live analysis response carrying a severity outside the three-level
set. -/
def lowSeverityAnalysis : AnalysisResult :=
  { gaps :=
      [ { severity := "low"
          title := "Minor formatting issue"
          description := "Labels are inconsistent across pages."
          regulation := "N/A"
          locations := [] } ]
    raw_observations := none }

/-- A parsed classification verdict that rejects the document. -/
def rejectVerdict : ClassificationResult :=
  { is_financial_document := false
    detected_type := some "Resume"
    reason := "The document is a resume, not a financial document." }

/-- A full pipeline run on a document whose classification verdict would
be reject (API key configured, classifier would answer rejectVerdict):
what run_audit_pipeline computes for it. -/
def rejectedRun : Except String AuditResult × List AgentCall :=
  runAuditPipeline "aud_12345678" "2026-02-01T00:00:00Z" (.ok sampleExtracted) true
    (.parsed rejectVerdict) (.exn "research down") (.exn "analysis down") .exn
    "resume.pdf" "Invoice" "user-1" "web"

set_option maxRecDepth 8000

-- Further helper lemmas.

theorem fallbackReport_remediation (score : Int) (grade : String)
    (gaps : List GapDict) (dt : String) :
    (fallbackReport score grade gaps dt).remediation =
      ensureFiveItems ((gaps.take 5).map remediationStep) := rfl

theorem fallbackResearch_rules_ne (dt : String) : (fallbackResearch dt).rules ≠ "" := by
  unfold fallbackResearch fallbackRulesTable
  by_cases h1 : dt = "SOX 404"
  · simp only [if_pos h1]; decide
  · simp only [if_neg h1]
    by_cases h2 : dt = "10-K"
    · simp only [if_pos h2]; decide
    · simp only [if_neg h2]
      by_cases h3 : dt = "8-K"
      · simp only [if_pos h3]; decide
      · simp only [if_neg h3]
        by_cases h4 : dt = "Invoice"
        · simp only [if_pos h4]; decide
        · simp only [if_neg h4]; decide

-- ---------------------------------------------------------------------------
-- Claim theorems
-- ---------------------------------------------------------------------------

/-- C2: the score/grade engine subtracts the fixed weights critical=15,
high=8, medium=3 and clamps, so the score is an integer in [0, 100]; the
grade bands have the exact boundaries 90→A, 89→B, 80→B, 79→C, 70→C,
69→D, 60→D, 59→F; and one critical + one high + one medium gap scores
74 with grade C. -/
theorem C2_score_grade_engine :
    (∀ gaps : List GapDict, 0 ≤ calculateScore gaps ∧ calculateScore gaps ≤ 100) ∧
    (∀ t d r l, gapPenalty ⟨some "critical", t, d, r, l⟩ = 15) ∧
    (∀ t d r l, gapPenalty ⟨some "high", t, d, r, l⟩ = 8) ∧
    (∀ t d r l, gapPenalty ⟨some "medium", t, d, r, l⟩ = 3) ∧
    (∀ gaps : List GapDict, calculateScore gaps = max 0 (100 - totalPenalty gaps)) ∧
    (calculateGrade 90 = "A" ∧ calculateGrade 89 = "B" ∧ calculateGrade 80 = "B" ∧
      calculateGrade 79 = "C" ∧ calculateGrade 70 = "C" ∧ calculateGrade 69 = "D" ∧
      calculateGrade 60 = "D" ∧ calculateGrade 59 = "F") ∧
    (calculateScore scenarioGaps = 74 ∧ calculateGrade (calculateScore scenarioGaps) = "C") := by
  refine ⟨?_, fun t d r l => rfl, fun t d r l => rfl, fun t d r l => rfl,
    fun gaps => rfl, by decide, by decide, by decide⟩
  intro gaps
  have h := totalPenalty_nonneg gaps
  unfold calculateScore
  constructor
  · exact le_max_left 0 _
  · exact max_le (by norm_num) (by omega)

/-- C5: the document gatekeeper fails open when no API key is configured
(accept, with a reason noting validation was skipped) and fails closed
when the configured backend returns unparseable or empty output (reject,
with a reason describing the parse failure). -/
theorem C5_gatekeeper_fail_open_closed :
    (∀ live, classifyDocument false live =
        { is_financial_document := true
          detected_type := none
          reason := "Skipping validation (no API key)" }) ∧
    classifyDocument true .unparseable =
        { is_financial_document := false
          detected_type := none
          reason := "Validation failed: Agent returned unparseable or empty output." } ∧
    classifyDocument true .noOutput =
        { is_financial_document := false
          detected_type := none
          reason := "Validation failed: Agent returned unparseable or empty output." } := by
  exact ⟨fun live => rfl, rfl, rfl⟩

/-- C7: the score is invariant under permutation of the gap list (and so
is the grade), and re-applying the engine to an identical gap list gives
the identical (score, grade) pair. -/
theorem C7_score_perm_invariant :
    (∀ gaps gaps2 : List GapDict, List.Perm gaps gaps2 →
        calculateScore gaps = calculateScore gaps2 ∧
        calculateGrade (calculateScore gaps) = calculateGrade (calculateScore gaps2)) ∧
    (∀ gaps : List GapDict,
        calculateScore gaps = calculateScore gaps ∧
        calculateGrade (calculateScore gaps) = calculateGrade (calculateScore gaps)) := by
  constructor
  · intro gaps gaps2 h
    have hs : totalPenalty gaps = totalPenalty gaps2 := (h.map gapPenalty).sum_eq
    unfold calculateScore
    rw [hs]
    exact ⟨rfl, rfl⟩
  · intro gaps
    exact ⟨rfl, rfl⟩

/-- C8: adding a gap of any severity never increases the score, and the
empty gap list scores 100 with grade A. -/
theorem C8_score_monotone_empty :
    (∀ (g : GapDict) (gaps : List GapDict),
        calculateScore (g :: gaps) ≤ calculateScore gaps) ∧
    calculateScore [] = 100 ∧
    calculateGrade (calculateScore []) = "A" := by
  refine ⟨?_, by decide, by decide⟩
  intro g gaps
  have h1 := gapPenalty_nonneg g
  unfold calculateScore
  rw [totalPenalty_cons]
  exact max_le_max (le_refl 0) (by omega)

/-- C10: a gap with a missing severity key, or any severity label outside
the three-level set (such as "low"), contributes a penalty of exactly 3
(the medium weight) to the total. -/
theorem C10_unknown_severity_penalty :
    (∀ t d r l, gapPenalty ⟨none, t, d, r, l⟩ = 3) ∧
    (∀ s t d r l, s ≠ "critical" → s ≠ "high" → s ≠ "medium" →
        gapPenalty ⟨some s, t, d, r, l⟩ = 3) ∧
    (∀ t d r l, gapPenalty ⟨some "low", t, d, r, l⟩ = 3) ∧
    (∀ (g : GapDict) (gaps : List GapDict),
        totalPenalty (g :: gaps) = gapPenalty g + totalPenalty gaps) := by
  refine ⟨fun t d r l => rfl, ?_, fun t d r l => rfl, totalPenalty_cons⟩
  intro s t d r l h1 h2 h3
  unfold gapPenalty severityWeights
  simp [h1, h2, h3]

/-- C3: the remediation list of a generated report has length exactly 5 in
every mode (no API key, usable live output, unusable live output, runner
failure); fewer than 5 items are padded in order with the fixed generic
defaults, more than 5 are truncated to the first 5. -/
theorem C3_remediation_always_five :
    (∀ auditId dn dt gaps apiKey live,
        (generateReport auditId dn dt gaps apiKey live).remediation.length = 5) ∧
    (∀ items : List String, 5 ≤ items.length → ensureFiveItems items = items.take 5) ∧
    (∀ items : List String, items.length < 5 →
        ensureFiveItems items = items ++ defaultRemediation.take (5 - items.length)) := by
  refine ⟨?_, ?_, ?_⟩
  · intro auditId dn dt gaps apiKey live
    have hf : ∀ (s : Int) (g u : String),
        ({ fallbackReport s g gaps dt with report_pdf_url := u } : ReportData).remediation.length = 5 := by
      intro s g u
      show (ensureFiveItems ((gaps.take 5).map remediationStep)).length = 5
      exact ensureFiveItems_length _
    cases apiKey
    · exact hf _ _ _
    · cases live with
      | parsed s r =>
          have heq : generateReport auditId dn dt gaps true (.parsed s r) =
              if s = "" ∨ r = [] then
                { fallbackReport (calculateScore gaps) (calculateGrade (calculateScore gaps)) gaps dt with
                    report_pdf_url := "/api/files/report_" ++ auditId ++ ".pdf" }
              else
                { score := calculateScore gaps
                  grade := calculateGrade (calculateScore gaps)
                  remediation := ensureFiveItems r
                  executive_summary := s
                  report_pdf_url := "/api/files/report_" ++ auditId ++ ".pdf" } := rfl
          by_cases h : s = "" ∨ r = []
          · rw [heq, if_pos h]
            exact hf _ _ _
          · rw [heq, if_neg h]
            exact ensureFiveItems_length r
      | unparseable => exact hf _ _ _
      | noOutput => exact hf _ _ _
      | exn => exact hf _ _ _
  · intro items h
    unfold ensureFiveItems
    rw [if_pos h]
  · intro items h
    unfold ensureFiveItems
    rw [if_neg (by omega)]

/-- C6: the rule provider is total for every document category: a live
exception or a live result at or below the 50-character threshold falls
back to the static rules, and the returned dict always carries a
non-empty rules text. -/
theorem C6_rule_provider_total :
    (∀ apiKey live dt, (researchComplianceRules apiKey live dt).rules ≠ "") ∧
    (∀ dt msg, researchComplianceRules true (.exn msg) dt = fallbackResearch dt) ∧
    (∀ (dt : String) (r : RulesDict), r.rules.length ≤ 50 →
        researchComplianceRules true (.ok r) dt = fallbackResearch dt) := by
  have hok : ∀ (r : RulesDict) (dt : String), researchComplianceRules true (.ok r) dt =
      if r.rules ≠ "" ∧ 50 < r.rules.length then r else fallbackResearch dt :=
    fun r dt => rfl
  refine ⟨?_, fun dt msg => rfl, ?_⟩
  · intro apiKey live dt
    cases apiKey
    · exact fallbackResearch_rules_ne dt
    · cases live with
      | ok r =>
          by_cases hc : r.rules ≠ "" ∧ 50 < r.rules.length
          · rw [hok, if_pos hc]
            exact hc.1
          · rw [hok, if_neg hc]
            exact fallbackResearch_rules_ne dt
      | exn m => exact fallbackResearch_rules_ne dt
  · intro dt r hlen
    rw [hok, if_neg]
    intro hc
    omega

/-- C9: fallback remediation is derived one step per gap in list order,
carrying the severity-keyed timeframe (critical 14 days, high 30 days,
medium 60 days) and the gap title, padded to five with the generic
defaults; on the ordered scenario list (critical, high, medium) the
first entry references the critical gap title with the 14-day
timeframe. -/
theorem C9_fallback_remediation_derivation :
    (∀ (score : Int) (grade dt : String) (gaps : List GapDict), gaps.length ≤ 5 →
        (fallbackReport score grade gaps dt).remediation =
          gaps.map remediationStep ++ defaultRemediation.take (5 - gaps.length)) ∧
    (∀ title d reg l, remediationStep ⟨some "critical", some title, d, some reg, l⟩ =
        "Address \"" ++ title ++ "\" " ++ "within 14 days"
          ++ " by reviewing compliance with " ++ reg ++ ".") ∧
    (∀ title d reg l, remediationStep ⟨some "high", some title, d, some reg, l⟩ =
        "Address \"" ++ title ++ "\" " ++ "within 30 days"
          ++ " by reviewing compliance with " ++ reg ++ ".") ∧
    (∀ title d reg l, remediationStep ⟨some "medium", some title, d, some reg, l⟩ =
        "Address \"" ++ title ++ "\" " ++ "within 60 days"
          ++ " by reviewing compliance with " ++ reg ++ ".") ∧
    (fallbackReport 74 "C" scenarioGaps "Invoice").remediation.length = 5 ∧
    (fallbackReport 74 "C" scenarioGaps "Invoice").remediation.head? =
      some "Address \"Missing ITGC Documentation\" within 14 days by reviewing compliance with SOX Section 404(a) — COSO Framework CC5.1." := by
  refine ⟨?_, fun title d reg l => rfl, fun title d reg l => rfl, fun title d reg l => rfl,
    by decide, by decide⟩
  intro score grade dt gaps h
  have htake : gaps.take 5 = gaps := List.take_of_length_le h
  rw [fallbackReport_remediation, htake]
  unfold ensureFiveItems
  by_cases h5 : 5 ≤ (gaps.map remediationStep).length
  · rw [if_pos h5]
    have hlen : gaps.length = 5 := by
      rw [List.length_map] at h5
      omega
    rw [show (5 : Nat) = (gaps.map remediationStep).length from by rw [List.length_map, hlen]]
    rw [List.take_length]
    simp [hlen]
  · rw [if_neg h5]
    rw [List.length_map]

/-- C4 counterexample: a live backend response carrying severity "low"
is returned by analyze_pdf unchanged, so the produced gap list has a
severity outside the three-level set. -/
theorem C4_counterexample_low_severity :
    ((analyzePdf sampleExtracted "Invoice" none true
        (.structured lowSeverityAnalysis)).gaps.all
      (fun g => severityAllowed g.severity)) = false := by decide

/-- C4 (amended): every gap produced on a fallback path of analyze_pdf
(no API key, unparseable output, missing output, or runner exception)
has severity in the three-level set, but a parsed live response is
returned as is, with no severity normalization or rejection. -/
theorem C4_severity_constraint_fallback_only :
    (∀ ex dt rules live, analyzePdf ex dt rules false live = mockAnalysis dt "DEDALUS_API_KEY not set") ∧
    (∀ dt reason, ((mockAnalysis dt reason).gaps.all (fun g => severityAllowed g.severity)) = true) ∧
    (∀ ex dt rules t, ((analyzePdf ex dt rules true (.unparseable t)).gaps.all
        (fun g => severityAllowed g.severity)) = true) ∧
    (∀ ex dt rules m, ((analyzePdf ex dt rules true (.exn m)).gaps.all
        (fun g => severityAllowed g.severity)) = true) ∧
    (∀ ex dt rules, ((analyzePdf ex dt rules true .noOutput).gaps.all
        (fun g => severityAllowed g.severity)) = true) ∧
    (∀ ex dt rules r, analyzePdf ex dt rules true (.structured r) = r) ∧
    (∀ ex dt rules r, analyzePdf ex dt rules true (.jsonParsed r) = r) := by
  have hmock : ∀ dt reason,
      ((mockAnalysis dt reason).gaps.all (fun g => severityAllowed g.severity)) = true := by
    intro dt reason
    unfold mockAnalysis
    dsimp only
    split
    · rfl
    · split
      · rfl
      · rfl
  refine ⟨fun ex dt rules live => rfl, hmock, ?_, ?_, ?_,
    fun ex dt rules r => rfl, fun ex dt rules r => rfl⟩
  · intro ex dt rules t
    exact hmock dt "Dedalus service unavailable"
  · intro ex dt rules m
    exact hmock dt ("Dedalus error: " ++ m)
  · intro ex dt rules
    exact hmock dt "Dedalus service unavailable"

/-- C1 (code evaluated at the failing input): on a run whose
classification verdict would be reject (API key configured, classifier
answering a reject verdict), run_audit_pipeline still invokes the rule
provider, the gap analyzer and the report synthesizer, never consults
the gatekeeper, and returns an audit result — so the route caller does
not receive the NOT_FINANCIAL_DOCUMENT error code. -/
theorem C1_pipeline_never_consults_gatekeeper :
    (classifyDocument true (.parsed rejectVerdict)).is_financial_document = false ∧
    rejectedRun.2 = [.ruleProvider, .gapAnalyzer, .reportSynthesizer] ∧
    AgentCall.documentGatekeeper ∉ rejectedRun.2 ∧
    (∃ audit, rejectedRun.1 = Except.ok audit) ∧
    responseErrorCode rejectedRun.1 ≠ some "NOT_FINANCIAL_DOCUMENT" := by
  refine ⟨rfl, rfl, by decide, ⟨_, rfl⟩, by decide⟩
